import Mathlib

/-!
Verification of the WebSocket opening-handshake logic of `src/ws/mod.rs`
(actix-web WebSocket module): `verify_handshake`, `handshake_response`,
`handshake`, and the `HandshakeError → Response` mapping.

Header values are byte sequences (`List Nat`, each byte < 256). Header
names are drawn from a closed enumeration since only a fixed set is ever
consulted. A Rust panic (the `unwrap()` inside `handshake_response`) is
modelled as `Option.none`.
-/

namespace ActixWs

/-- HTTP methods, as in the `http` crate's `Method` used by the source. -/
inductive Method where
  | GET
  | POST
  | PUT
  | DELETE
  | HEAD
  | OPTIONS
  | PATCH
deriving DecidableEq

/-- The header names consulted or produced by the handshake code. -/
inductive HName where
  | upgrade
  | connection
  | secWebSocketVersion
  | secWebSocketKey
  | secWebSocketAccept
  | transferEncoding
  | allow
deriving DecidableEq

/-- ASCII byte codes of a string literal, used for header values. -/
def strBytes (s : String) : List Nat :=
  s.data.map Char.toNat

/-- The `http` crate's `HeaderValue::to_str` succeeds iff every byte is
visible ASCII (32 ≤ b < 127) or a horizontal tab. Modelled from the spec:
the HTTP header abstraction is an external collaborator (spec section 6);
conversion fails exactly on values holding non-visible-ASCII bytes. -/
def isVisibleAscii (b : Nat) : Bool :=
  (32 ≤ b && b < 127) || b == 9

/-- `HeaderValue::to_str` as an `Option`: the byte list itself when every
byte is visible ASCII, `none` otherwise. -/
def toStr (v : List Nat) : Option (List Nat) :=
  if v.all isVisibleAscii then some v else none

/-- ASCII lowercasing of one byte, as Rust's `str::to_lowercase` acts on
the visible-ASCII strings produced by `to_str`. -/
def asciiLower (b : Nat) : Nat :=
  if 65 ≤ b && b ≤ 90 then b + 32 else b

/-- Substring containment on byte lists, as Rust's `str::contains`. -/
def listContains (needle : List Nat) : List Nat → Bool
  | [] => needle.isEmpty
  | b :: t => needle.isPrefixOf (b :: t) || listContains needle t

/-- A handshake request view: method, header multimap (lookup returns the
first entry with the given name, as `HeaderMap::get`), and the
connection-upgrade flag exposed by `Request::upgrade()`. -/
structure Request where
  method : Method
  headers : List (HName × List Nat)
  upgradeFlag : Bool

/-- `HeaderMap::get`: first value stored under the name, if any. -/
def headersGet (hs : List (HName × List Nat)) (n : HName) : Option (List Nat) :=
  match hs.find? (fun p => p.1 == n) with
  | some p => some p.2
  | none => none

/-- `HeaderMap::contains_key`. -/
def containsKey (hs : List (HName × List Nat)) (n : HName) : Bool :=
  hs.any (fun p => p.1 == n)

/-- The `HandshakeError` enum of `src/ws/mod.rs`. -/
inductive HandshakeError where
  | GetMethodRequired
  | NoWebsocketUpgrade
  | NoConnectionUpgrade
  | NoVersionHeader
  | UnsupportedVersion
  | BadWebsocketKey
deriving DecidableEq

/-- `verify_handshake` of `src/ws/mod.rs` lines 131-176: the early
returns of the source become an if/else chain, in source order. -/
def verify_handshake (req : Request) : Except HandshakeError Unit :=
  -- WebSocket accepts only GET
  if req.method ≠ Method.GET then
    Except.error HandshakeError.GetMethodRequired
  else
    -- Check for "UPGRADE" to websocket header
    let has_hdr :=
      match headersGet req.headers HName.upgrade with
      | some hdr =>
        match toStr hdr with
        | some s => listContains (strBytes "websocket") (s.map asciiLower)
        | none => false
      | none => false
    if !has_hdr then
      Except.error HandshakeError.NoWebsocketUpgrade
    -- Upgrade connection
    else if !req.upgradeFlag then
      Except.error HandshakeError.NoConnectionUpgrade
    -- check supported version
    else if !(containsKey req.headers HName.secWebSocketVersion) then
      Except.error HandshakeError.NoVersionHeader
    else
      let supported_ver :=
        match headersGet req.headers HName.secWebSocketVersion with
        | some hdr =>
          hdr == strBytes "13" || hdr == strBytes "8" || hdr == strBytes "7"
        | none => false
      if !supported_ver then
        Except.error HandshakeError.UnsupportedVersion
      -- check client handshake for validity
      else if !(containsKey req.headers HName.secWebSocketKey) then
        Except.error HandshakeError.BadWebsocketKey
      else
        Except.ok ()

/-! ### SHA-1 and base64, for the handshake key hash.

`proto::hash_key` lives in `src/ws/proto.rs`, which is not part of the
provided sources; the spec pins its value to
`base64(SHA1(key ++ "258EAFA5-E914-47DA-95CA-C5AB0DC85B11"))`. -/

/-- Truncation to a 32-bit word. -/
def w32 (n : Nat) : Nat := n % 4294967296

/-- 32-bit left rotation (argument assumed < 2^32). -/
def rotl (n x : Nat) : Nat := w32 ((x <<< n) ||| (x >>> (32 - n)))

/-- Big-endian byte encoding of `n` on `k` bytes. -/
def bytesBE (k n : Nat) : List Nat :=
  (List.range k).map (fun i => (n >>> (8 * (k - 1 - i))) % 256)

/-- SHA-1 message padding: a 0x80 byte, zeros, and the 64-bit big-endian
bit length, to a multiple of 64 bytes. -/
def sha1pad (msg : List Nat) : List Nat :=
  msg ++ [128] ++ List.replicate ((119 - msg.length % 64) % 64) 0
      ++ bytesBE 8 (msg.length * 8)

/-- Group four bytes (big-endian) into one 32-bit word. -/
def words32 : List Nat → List Nat
  | b0 :: b1 :: b2 :: b3 :: rest =>
    (((b0 <<< 8 ||| b1) <<< 8 ||| b2) <<< 8 ||| b3) :: words32 rest
  | _ => []

/-- One step of the SHA-1 message-schedule extension: append
`rotl 1 (w[i-3] ^^^ w[i-8] ^^^ w[i-14] ^^^ w[i-16])` where `i` is the
current length. -/
def extendStep (w : List Nat) : List Nat :=
  w ++ [rotl 1 ((w.getD (w.length - 3) 0) ^^^ (w.getD (w.length - 8) 0)
      ^^^ (w.getD (w.length - 14) 0) ^^^ (w.getD (w.length - 16) 0))]

/-- Iterate the schedule extension `n` times. -/
def extendWords (w : List Nat) : Nat → List Nat
  | 0 => w
  | n + 1 => extendWords (extendStep w) n

/-- The SHA-1 round function. -/
def sha1f (i b c d : Nat) : Nat :=
  if i < 20 then (b &&& c) ||| ((b ^^^ 4294967295) &&& d)
  else if i < 40 then b ^^^ c ^^^ d
  else if i < 60 then (b &&& c) ||| (b &&& d) ||| (c &&& d)
  else b ^^^ c ^^^ d

/-- The SHA-1 round constants. -/
def sha1k (i : Nat) : Nat :=
  if i < 20 then 1518500249
  else if i < 40 then 1859775393
  else if i < 60 then 2400959708
  else 3395469782

/-- The five 32-bit words of SHA-1 chaining state. -/
structure Sha1State where
  a : Nat
  b : Nat
  c : Nat
  d : Nat
  e : Nat
deriving DecidableEq

/-- One SHA-1 round over schedule `w` at index `i`. -/
def sha1round (w : List Nat) (i : Nat) (s : Sha1State) : Sha1State :=
  { a := w32 (rotl 5 s.a + sha1f i s.b s.c s.d + s.e + sha1k i + w.getD i 0)
    b := s.a
    c := rotl 30 s.b
    d := s.c
    e := s.d }

/-- Compress one 64-byte block into the chaining state. -/
def sha1block (h : Sha1State) (block : List Nat) : Sha1State :=
  let w := extendWords (words32 block) 64
  let s := (List.range 80).foldl (fun s i => sha1round w i s) h
  { a := w32 (h.a + s.a), b := w32 (h.b + s.b), c := w32 (h.c + s.c),
    d := w32 (h.d + s.d), e := w32 (h.e + s.e) }

/-- Split a byte list into 64-byte chunks (fuel = list length). -/
def chunksAux : Nat → List Nat → List (List Nat)
  | 0, _ => []
  | _, [] => []
  | n + 1, l => l.take 64 :: chunksAux n (l.drop 64)

/-- Split a byte list into 64-byte chunks. -/
def chunks64 (l : List Nat) : List (List Nat) := chunksAux l.length l

/-- SHA-1 of a byte list, as a 20-byte digest. -/
def sha1 (msg : List Nat) : List Nat :=
  let h := (chunks64 (sha1pad msg)).foldl sha1block
    ⟨1732584193, 4023233417, 2562383102, 271733878, 3285377520⟩
  bytesBE 4 h.a ++ bytesBE 4 h.b ++ bytesBE 4 h.c ++ bytesBE 4 h.d ++ bytesBE 4 h.e

/-- The standard base64 alphabet, as ASCII codes. -/
def b64alphabet : List Nat :=
  strBytes "ABCDEFGHIJKLMNOPQRSTUVWXYZabcdefghijklmnopqrstuvwxyz0123456789+/"

/-- Base64-encode (standard alphabet, `=` padding); fuel = list length. -/
def b64aux : Nat → List Nat → List Nat
  | 0, _ => []
  | _, [] => []
  | _, [b0] =>
    [b64alphabet.getD (b0 >>> 2) 0, b64alphabet.getD ((b0 &&& 3) <<< 4) 0, 61, 61]
  | _, [b0, b1] =>
    [b64alphabet.getD (b0 >>> 2) 0,
     b64alphabet.getD (((b0 &&& 3) <<< 4) ||| (b1 >>> 4)) 0,
     b64alphabet.getD ((b1 &&& 15) <<< 2) 0, 61]
  | n + 1, b0 :: b1 :: b2 :: rest =>
    b64alphabet.getD (b0 >>> 2) 0
      :: b64alphabet.getD (((b0 &&& 3) <<< 4) ||| (b1 >>> 4)) 0
      :: b64alphabet.getD (((b1 &&& 15) <<< 2) ||| (b2 >>> 6)) 0
      :: b64alphabet.getD (b2 &&& 63) 0
      :: b64aux n rest

/-- Base64 encoding of a byte list, as ASCII codes. -/
def b64encode (l : List Nat) : List Nat := b64aux l.length l

/-- Modelled from the spec: `proto::hash_key` (in `src/ws/proto.rs`, not
among the provided sources) computes
`base64(SHA1(key ++ "258EAFA5-E914-47DA-95CA-C5AB0DC85B11"))`, the
RFC 6455 accept key. -/
def hash_key (key : List Nat) : List Nat :=
  b64encode (sha1 (key ++ strBytes "258EAFA5-E914-47DA-95CA-C5AB0DC85B11"))

/-! ### Responses -/

/-- Modelled from the spec: the external HTTP response builder (spec
section 6 collaborator). We record the status code, the headers appended
via `.header(..)` / `.upgrade(..)` in call order, the custom reason
phrase set by `.reason(..)`, and whether `.upgrade(..)` marked the
connection for upgrade. `finish` / `take` hand this value back
unchanged, so `Response` and `ResponseBuilder` share one carrier. -/
structure HttpResponse where
  status : Nat
  headers : List (HName × List Nat)
  reasonPhrase : Option (List Nat)
  connUpgrade : Bool
deriving DecidableEq

/-- `impl ResponseError for HandshakeError`, `src/ws/mod.rs` lines
93-116: `GetMethodRequired` becomes 405 with `Allow: GET`; every other
variant becomes 400 with a variant-specific reason phrase. -/
def error_response : HandshakeError → HttpResponse
  | HandshakeError.GetMethodRequired =>
    { status := 405, headers := [(HName.allow, strBytes "GET")],
      reasonPhrase := none, connUpgrade := false }
  | HandshakeError.NoWebsocketUpgrade =>
    { status := 400, headers := [],
      reasonPhrase := some (strBytes "No WebSocket UPGRADE header found"),
      connUpgrade := false }
  | HandshakeError.NoConnectionUpgrade =>
    { status := 400, headers := [],
      reasonPhrase := some (strBytes "No CONNECTION upgrade"),
      connUpgrade := false }
  | HandshakeError.NoVersionHeader =>
    { status := 400, headers := [],
      reasonPhrase := some (strBytes "Websocket version header is required"),
      connUpgrade := false }
  | HandshakeError.UnsupportedVersion =>
    { status := 400, headers := [],
      reasonPhrase := some (strBytes "Unsupported version"),
      connUpgrade := false }
  | HandshakeError.BadWebsocketKey =>
    { status := 400, headers := [],
      reasonPhrase := some (strBytes "Handshake error"),
      connUpgrade := false }

/-- `handshake_response` of `src/ws/mod.rs` lines 181-192. The source
calls `.unwrap()` on the `Sec-WebSocket-Key` lookup; a missing header
panics, modelled as `none`. Otherwise it builds status 101 with
`.upgrade("websocket")` (which appends `Upgrade: websocket` and marks
the connection upgraded), a `Transfer-Encoding: chunked` header, and
`Sec-WebSocket-Accept` set to the hashed key. -/
def handshake_response (req : Request) : Option HttpResponse :=
  match headersGet req.headers HName.secWebSocketKey with
  | none => none
  | some keyHdr =>
    let key := hash_key keyHdr
    some { status := 101
           headers := [(HName.upgrade, strBytes "websocket"),
                       (HName.transferEncoding, strBytes "chunked"),
                       (HName.secWebSocketAccept, key)]
           reasonPhrase := none
           connUpgrade := true }

/-- `handshake` of `src/ws/mod.rs` lines 122-125:
`verify_handshake(req)?; Ok(handshake_response(req))`. -/
def handshake (req : Request) : Except HandshakeError (Option HttpResponse) :=
  match verify_handshake req with
  | Except.error e => Except.error e
  | Except.ok _ => Except.ok (handshake_response req)

/-! ### Named check predicates and the spec-side check order -/

/-- Check 2 of the spec: the `Upgrade` header is present and its value,
as a string, case-insensitively contains the substring "websocket"
(a value that does not convert to a string contains nothing). -/
def upgradeHeaderOk (req : Request) : Bool :=
  match headersGet req.headers HName.upgrade with
  | some hdr =>
    match toStr hdr with
    | some s => listContains (strBytes "websocket") (s.map asciiLower)
    | none => false
  | none => false

/-- Check 5 of the spec: the `Sec-WebSocket-Version` value is exactly
"13", "8" or "7". -/
def versionSupported (req : Request) : Bool :=
  match headersGet req.headers HName.secWebSocketVersion with
  | some hdr =>
    hdr == strBytes "13" || hdr == strBytes "8" || hdr == strBytes "7"
  | none => false

/-- The spec's fixed check order, written as first-failing-check over the
six named checks: method, upgrade header, connection-upgrade flag,
version presence, version value, key presence. -/
def verifySpecOrder (req : Request) : Except HandshakeError Unit :=
  if !(req.method == Method.GET) then
    Except.error HandshakeError.GetMethodRequired
  else if !(upgradeHeaderOk req) then
    Except.error HandshakeError.NoWebsocketUpgrade
  else if !req.upgradeFlag then
    Except.error HandshakeError.NoConnectionUpgrade
  else if !(containsKey req.headers HName.secWebSocketVersion) then
    Except.error HandshakeError.NoVersionHeader
  else if !(versionSupported req) then
    Except.error HandshakeError.UnsupportedVersion
  else if !(containsKey req.headers HName.secWebSocketKey) then
    Except.error HandshakeError.BadWebsocketKey
  else
    Except.ok ()

/-! ### Concrete requests used in witnesses and counterexamples -/

/-- A fully valid handshake request carrying the RFC 6455 sample key. -/
def validReq : Request :=
  { method := Method.GET
    headers := [(HName.upgrade, strBytes "websocket"),
                (HName.connection, strBytes "upgrade"),
                (HName.secWebSocketVersion, strBytes "13"),
                (HName.secWebSocketKey, strBytes "dGhlIHNhbXBsZSBub25jZQ==")]
    upgradeFlag := true }

/-- A request with every handshake header in place but method POST. -/
def postReq : Request :=
  { method := Method.POST, headers := validReq.headers, upgradeFlag := true }

/-- A GET request whose `Upgrade` header says `keep-alive`. -/
def keepAliveReq : Request :=
  { method := Method.GET
    headers := [(HName.upgrade, strBytes "keep-alive")]
    upgradeFlag := true }

/-- A GET request with `Sec-WebSocket-Version: 5`, upgrade header and
connection-upgrade flag set. -/
def badVersionReq : Request :=
  { method := Method.GET
    headers := [(HName.upgrade, strBytes "websocket"),
                (HName.connection, strBytes "upgrade"),
                (HName.secWebSocketVersion, strBytes "5")]
    upgradeFlag := true }

/-- A GET request with upgrade header and flag but no version header. -/
def noVersionReq : Request :=
  { method := Method.GET
    headers := [(HName.upgrade, strBytes "websocket")]
    upgradeFlag := true }

/-- A GET request whose `Upgrade` value holds the non-visible-ASCII byte
255, so `HeaderValue::to_str` fails on it. -/
def badBytesReq : Request :=
  { method := Method.GET
    headers := [(HName.upgrade, [119, 101, 98, 255])]
    upgradeFlag := true }

/-! ### Helper lemmas -/

/-- `headersGet` finds a value exactly when `containsKey` holds: the
lookup succeeds iff some entry carries the name. -/
theorem headersGet_isSome (hs : List (HName × List Nat)) (n : HName) :
    (headersGet hs n).isSome = containsKey hs n := by
  induction hs with
  | nil => rfl
  | cons p t ih =>
    simp only [headersGet, containsKey, List.find?, List.any] at *
    cases hb : p.1 == n
    · simpa [hb] using ih
    · simp [hb]

/-- `verify_handshake` computes exactly the first-failing-check function
over the spec's six checks in the spec's order. -/
theorem verify_eq_specOrder (req : Request) :
    verify_handshake req = verifySpecOrder req := by
  unfold verify_handshake verifySpecOrder upgradeHeaderOk versionSupported
  by_cases hm : req.method = Method.GET <;> simp [hm]

/-- A request passing `verify_handshake` carries a `Sec-WebSocket-Key`
header, so the lookup inside `handshake_response` succeeds. -/
theorem verify_ok_key_present (req : Request)
    (hv : verify_handshake req = Except.ok ()) :
    (headersGet req.headers HName.secWebSocketKey).isSome = true := by
  rw [headersGet_isSome]
  rw [verify_eq_specOrder] at hv
  unfold verifySpecOrder at hv
  split at hv
  · exact absurd hv (by simp)
  split at hv
  · exact absurd hv (by simp)
  split at hv
  · exact absurd hv (by simp)
  split at hv
  · exact absurd hv (by simp)
  split at hv
  · exact absurd hv (by simp)
  split at hv
  · exact absurd hv (by simp)
  · rename_i h
    simpa using h

/-! ### Claims -/

/-- C2: for every request whose method is not GET, `verify_handshake`
returns `GetMethodRequired`, whatever the headers and the upgrade flag
hold — the method check precedes every header inspection. -/
theorem verify_handshake_non_get (req : Request)
    (h : req.method ≠ Method.GET) :
    verify_handshake req = Except.error HandshakeError.GetMethodRequired := by
  unfold verify_handshake
  simp [h]

/-- Witness for C2 at a POST request that carries every handshake
header. -/
theorem verify_handshake_non_get_witness :
    postReq.method ≠ Method.GET ∧
    verify_handshake postReq = Except.error HandshakeError.GetMethodRequired :=
  ⟨by decide, verify_handshake_non_get postReq (by decide)⟩

/-- C3: `verify_handshake` runs the checks in the fixed order
method → upgrade header → connection-upgrade flag → version presence →
version value → key presence, returning the first failing check's error
(`GetMethodRequired`, `NoWebsocketUpgrade`, `NoConnectionUpgrade`,
`NoVersionHeader`, `UnsupportedVersion`, `BadWebsocketKey`), or
`Ok(())` when every check passes: it equals the first-failing-check
function `verifySpecOrder`. -/
theorem verify_handshake_first_failing_check (req : Request) :
    verify_handshake req = verifySpecOrder req :=
  verify_eq_specOrder req

/-- C4: on a GET request, `verify_handshake` returns
`NoWebsocketUpgrade` exactly when the `Upgrade` header is absent or its
value does not case-insensitively contain "websocket". -/
theorem verify_handshake_upgrade_header (req : Request)
    (h : req.method = Method.GET) :
    verify_handshake req = Except.error HandshakeError.NoWebsocketUpgrade ↔
      upgradeHeaderOk req = false := by
  rw [verify_eq_specOrder]
  unfold verifySpecOrder
  simp [h]
  cases hu : upgradeHeaderOk req <;> simp [hu]
  repeat' split
  all_goals simp

/-- Witness for C4: the spec's scenario `Upgrade: keep-alive` yields
`NoWebsocketUpgrade`. -/
theorem verify_handshake_upgrade_header_witness :
    keepAliveReq.method = Method.GET ∧
    verify_handshake keepAliveReq =
      Except.error HandshakeError.NoWebsocketUpgrade :=
  ⟨by decide,
   (verify_handshake_upgrade_header keepAliveReq (by decide)).mpr (by decide)⟩

/-- C5: on a request passing the method, upgrade-header and
connection-upgrade checks, a missing `Sec-WebSocket-Version` header
yields `NoVersionHeader`, and a present one whose value is not exactly
"13", "8" or "7" yields `UnsupportedVersion`. -/
theorem verify_handshake_version (req : Request)
    (hm : req.method = Method.GET) (hu : upgradeHeaderOk req = true)
    (hc : req.upgradeFlag = true) :
    (containsKey req.headers HName.secWebSocketVersion = false →
      verify_handshake req = Except.error HandshakeError.NoVersionHeader) ∧
    (∀ v, headersGet req.headers HName.secWebSocketVersion = some v →
      v ≠ strBytes "13" → v ≠ strBytes "8" → v ≠ strBytes "7" →
      verify_handshake req =
        Except.error HandshakeError.UnsupportedVersion) := by
  rw [verify_eq_specOrder]
  unfold verifySpecOrder
  constructor
  · intro h
    simp [hm, hu, hc, h]
  · intro v hv h13 h8 h7
    have hk : containsKey req.headers HName.secWebSocketVersion = true := by
      rw [← headersGet_isSome, hv]
      rfl
    have hsup : versionSupported req = false := by
      unfold versionSupported
      rw [hv]
      simp [h13, h8, h7]
    simp [hm, hu, hc, hk, hsup]

/-- Witness for C5: a request without the version header yields
`NoVersionHeader`; the spec's scenario `Sec-WebSocket-Version: 5`
yields `UnsupportedVersion`. -/
theorem verify_handshake_version_witness :
    verify_handshake noVersionReq =
      Except.error HandshakeError.NoVersionHeader ∧
    verify_handshake badVersionReq =
      Except.error HandshakeError.UnsupportedVersion :=
  ⟨(verify_handshake_version noVersionReq (by decide) (by decide)
      (by decide)).1 (by decide),
   (verify_handshake_version badVersionReq (by decide) (by decide)
      (by decide)).2 (strBytes "5") (by decide) (by decide) (by decide)
      (by decide)⟩

set_option maxRecDepth 100000 in
/-- C1: on every request satisfying all handshake preconditions — the
key header holding `key` — `handshake_response` produces a response of
status 101 whose `Sec-WebSocket-Accept` value is
`base64(SHA1(key ++ "258EAFA5-E914-47DA-95CA-C5AB0DC85B11"))`, whatever
`key` holds; in particular the RFC 6455 sample key
"dGhlIHNhbXBsZSBub25jZQ==" hashes to "s3pPLMBiTxaQ9kYGzzhZRbK+xOo=". -/
theorem handshake_response_accept :
    (∀ (req : Request) (key : List Nat),
      verify_handshake req = Except.ok () →
      headersGet req.headers HName.secWebSocketKey = some key →
      ∃ r, handshake_response req = some r ∧ r.status = 101 ∧
        headersGet r.headers HName.secWebSocketAccept =
          some (b64encode (sha1 (key ++
            strBytes "258EAFA5-E914-47DA-95CA-C5AB0DC85B11")))) ∧
    hash_key (strBytes "dGhlIHNhbXBsZSBub25jZQ==") =
      strBytes "s3pPLMBiTxaQ9kYGzzhZRbK+xOo=" := by
  constructor
  · intro req key _ hk
    unfold handshake_response
    rw [hk]
    exact ⟨_, rfl, rfl, rfl⟩
  · decide

/-- Witness for C1 at the valid request carrying the sample key. -/
theorem handshake_response_accept_witness :
    verify_handshake validReq = Except.ok () ∧
    ∃ r, handshake_response validReq = some r ∧ r.status = 101 ∧
      headersGet r.headers HName.secWebSocketAccept =
        some (b64encode (sha1 (strBytes "dGhlIHNhbXBsZSBub25jZQ==" ++
          strBytes "258EAFA5-E914-47DA-95CA-C5AB0DC85B11"))) :=
  ⟨rfl, handshake_response_accept.1 validReq
    (strBytes "dGhlIHNhbXBsZSBub25jZQ==") rfl rfl⟩

/-- C6: `handshake` is the composition of `verify_handshake` and
`handshake_response`: it propagates any verification error unchanged
and otherwise returns `Ok` of `handshake_response` on the same
request. -/
theorem handshake_composes (req : Request) :
    (∀ e, verify_handshake req = Except.error e →
      handshake req = Except.error e) ∧
    (verify_handshake req = Except.ok () →
      handshake req = Except.ok (handshake_response req)) := by
  constructor
  · intro e h
    simp [handshake, h]
  · intro h
    simp [handshake, h]

/-- Witness for C6 on a failing and on a succeeding request. -/
theorem handshake_composes_witness :
    handshake postReq = Except.error HandshakeError.GetMethodRequired ∧
    handshake validReq = Except.ok (handshake_response validReq) :=
  ⟨(handshake_composes postReq).1 HandshakeError.GetMethodRequired rfl,
   (handshake_composes validReq).2 rfl⟩

/-- C7 counterexample: on a fully valid handshake request the success
response does carry a transfer-encoding framing header —
`handshake_response` itself sets `Transfer-Encoding: chunked` (source
line 189), contradicting the claim that no such header is set. -/
theorem handshake_response_transfer_encoding_cex :
    verify_handshake validReq = Except.ok () ∧
    ∃ r, handshake_response validReq = some r ∧
      headersGet r.headers HName.transferEncoding =
        some (strBytes "chunked") :=
  ⟨rfl, _, rfl, rfl⟩

/-- C7 (amended): on every valid handshake request the success response
is status 101 with connection marked upgraded, headers
`Upgrade: websocket` and `Sec-WebSocket-Accept`, and additionally a
`Transfer-Encoding: chunked` header set by `handshake_response`
itself. -/
theorem handshake_response_success_headers (req : Request)
    (hv : verify_handshake req = Except.ok ()) :
    ∃ r, handshake_response req = some r ∧ r.status = 101 ∧
      r.connUpgrade = true ∧
      headersGet r.headers HName.upgrade = some (strBytes "websocket") ∧
      (headersGet r.headers HName.secWebSocketAccept).isSome = true ∧
      headersGet r.headers HName.transferEncoding =
        some (strBytes "chunked") := by
  have h := verify_ok_key_present req hv
  unfold handshake_response
  cases hk : headersGet req.headers HName.secWebSocketKey
  · rw [hk] at h
    simp at h
  · exact ⟨_, rfl, rfl, rfl, rfl, rfl, rfl⟩

/-- Witness for the amended C7 at the valid request. -/
theorem handshake_response_success_headers_witness :
    verify_handshake validReq = Except.ok () ∧
    ∃ r, handshake_response validReq = some r ∧ r.status = 101 ∧
      r.connUpgrade = true ∧
      headersGet r.headers HName.upgrade = some (strBytes "websocket") ∧
      (headersGet r.headers HName.secWebSocketAccept).isSome = true ∧
      headersGet r.headers HName.transferEncoding =
        some (strBytes "chunked") :=
  ⟨rfl, handshake_response_success_headers validReq rfl⟩

/-- C8: the error-response mapping sends `GetMethodRequired` to status
405 with `Allow: GET`, and each of the other five variants to status
400 with its own fixed reason phrase; the five phrases are pairwise
distinct. -/
theorem error_response_mapping :
    (error_response HandshakeError.GetMethodRequired).status = 405 ∧
    headersGet (error_response HandshakeError.GetMethodRequired).headers
      HName.allow = some (strBytes "GET") ∧
    (error_response HandshakeError.NoWebsocketUpgrade).status = 400 ∧
    (error_response HandshakeError.NoWebsocketUpgrade).reasonPhrase =
      some (strBytes "No WebSocket UPGRADE header found") ∧
    (error_response HandshakeError.NoConnectionUpgrade).status = 400 ∧
    (error_response HandshakeError.NoConnectionUpgrade).reasonPhrase =
      some (strBytes "No CONNECTION upgrade") ∧
    (error_response HandshakeError.NoVersionHeader).status = 400 ∧
    (error_response HandshakeError.NoVersionHeader).reasonPhrase =
      some (strBytes "Websocket version header is required") ∧
    (error_response HandshakeError.UnsupportedVersion).status = 400 ∧
    (error_response HandshakeError.UnsupportedVersion).reasonPhrase =
      some (strBytes "Unsupported version") ∧
    (error_response HandshakeError.BadWebsocketKey).status = 400 ∧
    (error_response HandshakeError.BadWebsocketKey).reasonPhrase =
      some (strBytes "Handshake error") ∧
    List.Pairwise (fun a b => a ≠ b)
      ([HandshakeError.NoWebsocketUpgrade, HandshakeError.NoConnectionUpgrade,
        HandshakeError.NoVersionHeader, HandshakeError.UnsupportedVersion,
        HandshakeError.BadWebsocketKey].map
          (fun e => (error_response e).reasonPhrase)) := by
  decide

/-- C9: `handshake_response` reads the key header unconditionally:
whenever `verify_handshake` succeeded it totally produces a response,
and on a request without a `Sec-WebSocket-Key` header the lookup's
`unwrap()` is a fatal precondition violation (modelled `none`), not a
typed error. -/
theorem handshake_response_total (req : Request) :
    (verify_handshake req = Except.ok () →
      (handshake_response req).isSome = true) ∧
    (containsKey req.headers HName.secWebSocketKey = false →
      handshake_response req = none) := by
  constructor
  · intro hv
    have h := verify_ok_key_present req hv
    unfold handshake_response
    cases hk : headersGet req.headers HName.secWebSocketKey
    · rw [hk] at h
      simp at h
    · rfl
  · intro h
    have hn : (headersGet req.headers HName.secWebSocketKey).isSome = false := by
      rw [headersGet_isSome, h]
    unfold handshake_response
    cases hk : headersGet req.headers HName.secWebSocketKey
    · rfl
    · rw [hk] at hn
      simp at hn

/-- Witness for C9: a valid request produces a response; a keyless
request hits the modelled panic. -/
theorem handshake_response_total_witness :
    (handshake_response validReq).isSome = true ∧
    handshake_response badVersionReq = none :=
  ⟨(handshake_response_total validReq).1 rfl,
   (handshake_response_total badVersionReq).2 (by decide)⟩

/-- C10: a GET request whose `Upgrade` value holds non-visible-ASCII
bytes (so `HeaderValue::to_str` fails) is treated like an absent or
non-matching header: `verify_handshake` returns `NoWebsocketUpgrade`
rather than panicking or another error. -/
theorem verify_handshake_bad_upgrade_bytes (req : Request)
    (hm : req.method = Method.GET) (v : List Nat)
    (hv : headersGet req.headers HName.upgrade = some v)
    (hs : toStr v = none) :
    verify_handshake req = Except.error HandshakeError.NoWebsocketUpgrade := by
  rw [verify_eq_specOrder]
  unfold verifySpecOrder upgradeHeaderOk
  simp [hm, hv, hs]

/-- Witness for C10 at a request whose `Upgrade` value ends in byte
255. -/
theorem verify_handshake_bad_upgrade_bytes_witness :
    verify_handshake badBytesReq =
      Except.error HandshakeError.NoWebsocketUpgrade :=
  verify_handshake_bad_upgrade_bytes badBytesReq (by decide)
    [119, 101, 98, 255] (by decide) (by decide)

end ActixWs
